import Mathlib

/-!
Shallow embedding of the deployment reconciliation engine of
`hyperliquid-deployer` (src/server.js).

The AWS platform (ECS + CloudWatch Logs) is modelled as an oracle record
`Platform` giving the outcome of each platform call; every embedded
operation returns both the ordered trace of platform calls it issued and
its result (`Except AwsErr _`), mirroring the JavaScript `await`/`throw`
control flow of `server.js`.
-/

namespace HyperliquidDeployer

/-- A JavaScript error value: `err.name` and `err.message`. -/
structure AwsErr where
  name : String
  message : String
  deriving DecidableEq, Repr

/-- Per-agent credentials forwarded into the container environment
(`deployToFargate(agentId, credentials)`, src/server.js:120). -/
structure Credentials where
  apiKey : String
  hyperliquidAddress : String
  deriving DecidableEq, Repr

/-- The environment-derived configuration read at module load
(src/server.js:39-49).  `ecsExecutionRoleArn` is `Option` because the
variable may be unset. -/
structure Config where
  awsRegion : String
  ecsCluster : String
  ecrRepository : String
  ecrRegistry : String
  subnetIds : List String
  securityGroupIds : List String
  assignPublicIp : Bool
  ecsExecutionRoleArn : Option String
  ecsTaskRoleArn : Option String
  supabaseUrl : String
  supabaseAnonKey : String
  deriving DecidableEq, Repr

/-- Arguments of `RegisterTaskDefinitionCommand` (src/server.js:151-183). -/
structure RegisterTaskDefParams where
  family : String
  cpu : String
  memory : String
  executionRoleArn : String
  taskRoleArn : Option String
  containerName : String
  image : String
  environment : List (String × String)
  command : List String
  logGroup : String
  logRegion : String
  streamPref : String
  healthInterval : Nat
  healthTimeout : Nat
  healthRetries : Nat
  healthStartPeriod : Nat
  deriving DecidableEq, Repr

/-- Arguments of `CreateServiceCommand` (src/server.js:191-208). -/
structure CreateServiceParams where
  cluster : String
  serviceName : String
  taskDefinition : String
  desiredCount : Nat
  launchType : String
  subnets : List String
  securityGroups : List String
  assignPublicIp : String
  maximumPercent : Nat
  minimumHealthyPercent : Nat
  deriving DecidableEq, Repr

/-- Arguments of `UpdateServiceCommand` (src/server.js:225-235). -/
structure UpdateServiceParams where
  cluster : String
  service : String
  taskDefinition : String
  forceNewDeployment : Bool
  desiredCount : Nat
  maximumPercent : Nat
  minimumHealthyPercent : Nat
  deriving DecidableEq, Repr

/-- Arguments of `DeleteServiceCommand` (src/server.js:243-247). -/
structure DeleteServiceParams where
  cluster : String
  service : String
  force : Bool
  deriving DecidableEq, Repr

/-- One outbound platform call issued by the deployer, in program order.
`waitMs` records the fixed `setTimeout` delay (src/server.js:250). -/
inductive PlatformCall where
  | createLogGroup (logGroupName : String)
  | putRetentionPolicy (logGroupName : String) (retentionInDays : Nat)
  | registerTaskDefinition (params : RegisterTaskDefParams)
  | describeServices (cluster : String) (service : String)
  | updateService (params : UpdateServiceParams)
  | deleteService (params : DeleteServiceParams)
  | waitMs (ms : Nat)
  | createService (params : CreateServiceParams)
  deriving DecidableEq, Repr

/-- Oracle for the outcome of each platform call within one deployment.
`describeServicesResp` yields `Option (List String)` because in JS
`desc.services` may be `undefined` (`none`) or a list of services (we keep
only the `status` field, the sole field the code reads).  `createServiceResp`
is indexed by occurrence, since `createNewService` can run more than once. -/
structure Platform where
  createLogGroupResp : Except AwsErr Unit
  putRetentionResp : Except AwsErr Unit
  registerTaskDefResp : Except AwsErr String
  describeServicesResp : Except AwsErr (Option (List String))
  updateServiceResp : Except AwsErr String
  deleteServiceResp : Except AwsErr Unit
  createServiceResp : Nat → Except AwsErr String

/-- The object returned by `deployToFargate` (src/server.js:277-282). -/
structure DeployOutput where
  serviceArn : String
  taskDefArn : String
  logGroupName : String
  logUrl : String
  deriving DecidableEq, Repr

/-- `const logGroupName = ` followed by the template
`/ecs/hyperliquid-agents/` agentId (src/server.js:103). -/
def logGroupNameOf (agentId : String) : String :=
  "/ecs/hyperliquid-agents/" ++ agentId

/-- `const taskFamily = ` template `hyperliquid-agent-` agentId
(src/server.js:148). -/
def taskFamilyOf (agentId : String) : String :=
  "hyperliquid-agent-" ++ agentId

/-- `const serviceName = ` template `agent-svc-` agentId (src/server.js:187). -/
def serviceNameOf (agentId : String) : String :=
  "agent-svc-" ++ agentId

/-- `const imageUri = ` registry `/` repository `:latest` (src/server.js:135). -/
def imageUriOf (cfg : Config) : String :=
  cfg.ecrRegistry ++ "/" ++ cfg.ecrRepository ++ ":latest"

/-- Boolean: is the first list a contiguous prelude of the second. -/
def listStartsWith : List Char → List Char → Bool
  | [], _ => true
  | _ :: _, [] => false
  | a :: as, b :: bs => a == b && listStartsWith as bs

/-- Helper for `strContains`: scan every suffix of the haystack. -/
def strContainsAux (needle : List Char) : List Char → Bool
  | [] => listStartsWith needle []
  | b :: bs => listStartsWith needle (b :: bs) || strContainsAux needle bs

/-- JS `hay.includes(needle)`: substring containment. -/
def strContains (needle hay : String) : Bool :=
  strContainsAux needle.toList hay.toList

/-- `err.message?.includes('not found')` (src/server.js:265). -/
def notFoundIn (s : String) : Bool :=
  strContains "not found" s

/-- Characters left unescaped by JS `encodeURIComponent`:
alphanumerics and `- _ . ! ~ * ' ( )`. -/
def isUriUnreserved (c : Char) : Bool :=
  c.isAlphanum || c == '-' || c == '_' || c == '.' || c == '!' ||
    c == '~' || c == '*' || c == Char.ofNat 39 || c == '(' || c == ')'

/-- Uppercase hexadecimal digit for `n < 16`. -/
def hexDigit (n : Nat) : Char :=
  "0123456789ABCDEF".toList.getD n '0'

/-- Percent-encoding of one byte, uppercase hex. -/
def percentByte (b : Nat) : String :=
  "%" ++ (hexDigit (b / 16)).toString ++ (hexDigit (b % 16)).toString

/-- UTF-8 bytes of a character, as natural numbers. -/
def utf8Bytes (c : Char) : List Nat :=
  let n := c.toNat
  if n < 128 then [n]
  else if n < 2048 then [192 + n / 64, 128 + n % 64]
  else if n < 65536 then [224 + n / 4096, 128 + (n / 64) % 64, 128 + n % 64]
  else [240 + n / 262144, 128 + (n / 4096) % 64, 128 + (n / 64) % 64, 128 + n % 64]

/-- JS `encodeURIComponent`. -/
def encodeURIComponent (s : String) : String :=
  s.toList.foldl
    (fun acc c =>
      acc ++ (if isUriUnreserved c then c.toString
              else String.join ((utf8Bytes c).map percentByte)))
    ""

/-- The `logUrl` CloudWatch console link (src/server.js:281). -/
def mkLogUrl (cfg : Config) (logGroupName : String) : String :=
  "https://" ++ cfg.awsRegion ++
    ".console.aws.amazon.com/cloudwatch/home?region=" ++ cfg.awsRegion ++
    "#logsV2:log-groups/log-group/" ++ encodeURIComponent logGroupName

/-- `ensureLogGroup(agentId)` (src/server.js:102-118): create the log group,
treating `ResourceAlreadyExistsException` as success; then set a 30-day
retention, swallowing any retention error (`console.warn`); return the
log group name. -/
def ensureLogGroup (p : Platform) (agentId : String) :
    List PlatformCall × Except AwsErr String :=
  let logGroupName := logGroupNameOf agentId
  let createCall := PlatformCall.createLogGroup logGroupName
  let retentionCall := PlatformCall.putRetentionPolicy logGroupName 30
  match p.createLogGroupResp with
  | .error e =>
    if e.name ≠ "ResourceAlreadyExistsException" then
      ([createCall], .error e)
    else
      match p.putRetentionResp with
      | .ok _ => ([createCall, retentionCall], .ok logGroupName)
      | .error _ => ([createCall, retentionCall], .ok logGroupName)
  | .ok _ =>
    match p.putRetentionResp with
    | .ok _ => ([createCall, retentionCall], .ok logGroupName)
    | .error _ => ([createCall, retentionCall], .ok logGroupName)

/-- The container environment list (src/server.js:137-146). -/
def environmentOf (cfg : Config) (agentId : String) (creds : Credentials)
    (logGroupName : String) : List (String × String) :=
  [("AGENT_ID", agentId),
   ("HYPERLIQUID_PRIVATE_KEY", creds.apiKey),
   ("HYPERLIQUID_ADDRESS", creds.hyperliquidAddress),
   ("SUPABASE_URL", cfg.supabaseUrl),
   ("SUPABASE_ANON_KEY", cfg.supabaseAnonKey),
   ("AWS_REGION", cfg.awsRegion),
   ("LOG_GROUP_NAME", logGroupName)]

/-- The `RegisterTaskDefinitionCommand` payload (src/server.js:151-183). -/
def registerParamsOf (cfg : Config) (execRole agentId : String)
    (creds : Credentials) (logGroupName : String) : RegisterTaskDefParams :=
  { family := taskFamilyOf agentId
    cpu := "512"
    memory := "1024"
    executionRoleArn := execRole
    taskRoleArn := cfg.ecsTaskRoleArn
    containerName := "agent"
    image := imageUriOf cfg
    environment := environmentOf cfg agentId creds logGroupName
    command := ["sh", "-c", "node agentRunner.js $AGENT_ID"]
    logGroup := logGroupName
    logRegion := cfg.awsRegion
    streamPref := "agent"
    healthInterval := 30
    healthTimeout := 5
    healthRetries := 3
    healthStartPeriod := 120 }

/-- The `CreateServiceCommand` payload built by `createNewService`
(src/server.js:191-208). -/
def createParamsOf (cfg : Config) (serviceName taskDefArn : String) :
    CreateServiceParams :=
  { cluster := cfg.ecsCluster
    serviceName := serviceName
    taskDefinition := taskDefArn
    desiredCount := 1
    launchType := "FARGATE"
    subnets := cfg.subnetIds
    securityGroups := cfg.securityGroupIds
    assignPublicIp := if cfg.assignPublicIp then "ENABLED" else "DISABLED"
    maximumPercent := 200
    minimumHealthyPercent := 100 }

/-- The `UpdateServiceCommand` payload (src/server.js:225-235). -/
def updateParamsOf (cfg : Config) (serviceName taskDefArn : String) :
    UpdateServiceParams :=
  { cluster := cfg.ecsCluster
    service := serviceName
    taskDefinition := taskDefArn
    forceNewDeployment := true
    desiredCount := 1
    maximumPercent := 200
    minimumHealthyPercent := 100 }

/-- The `DeleteServiceCommand` payload (src/server.js:243-247). -/
def deleteParamsOf (cfg : Config) (serviceName : String) : DeleteServiceParams :=
  { cluster := cfg.ecsCluster
    service := serviceName
    force := true }

/-- The error thrown at src/server.js:255, combining the update failure
with the failure of the recovery sequence (delete, or the create after it:
the `catch (deleteErr)` block spans both). -/
def combineUpdateDeleteErr (updateErr recoveryErr : AwsErr) : AwsErr :=
  ⟨"Error",
    "Failed to update or delete service: " ++ updateErr.message ++
      ". Delete attempt: " ++ recoveryErr.message⟩

/-- The body of the `try` block at src/server.js:214-262: describe the
service; if found, update (force) and on update failure delete (force),
wait 2000 ms and recreate; if the result set is empty or absent, create.
Returns (trace, result, number of `createNewService` calls consumed);
an `.error` result is an exception escaping the `try` block into the
outer `catch`. -/
def tryBody (cfg : Config) (p : Platform) (serviceName taskDefArn : String) :
    List PlatformCall × Except AwsErr String × Nat :=
  let descC := PlatformCall.describeServices cfg.ecsCluster serviceName
  let cc := PlatformCall.createService (createParamsOf cfg serviceName taskDefArn)
  match p.describeServicesResp with
  | .error e => ([descC], .error e, 0)
  | .ok none =>
    match p.createServiceResp 0 with
    | .ok arn => ([descC, cc], .ok arn, 1)
    | .error e => ([descC, cc], .error e, 1)
  | .ok (some svcs) =>
    if svcs.length > 0 then
      let up := PlatformCall.updateService (updateParamsOf cfg serviceName taskDefArn)
      match p.updateServiceResp with
      | .ok arn => ([descC, up], .ok arn, 0)
      | .error updateErr =>
        let del := PlatformCall.deleteService (deleteParamsOf cfg serviceName)
        match p.deleteServiceResp with
        | .error deleteErr =>
          ([descC, up, del], .error (combineUpdateDeleteErr updateErr deleteErr), 0)
        | .ok _ =>
          match p.createServiceResp 0 with
          | .ok arn =>
            ([descC, up, del, .waitMs 2000, cc], .ok arn, 1)
          | .error createErr =>
            ([descC, up, del, .waitMs 2000, cc],
              .error (combineUpdateDeleteErr updateErr createErr), 1)
    else
      match p.createServiceResp 0 with
      | .ok arn => ([descC, cc], .ok arn, 1)
      | .error e => ([descC, cc], .error e, 1)

/-- The outer `catch` at src/server.js:263-275: if the caught error looks
like service-not-found (`err.name === 'ServiceNotFoundException'` or the
message includes `not found`), create the service, wrapping a create
failure; otherwise rethrow as a status-check failure. -/
def outerCatch (cfg : Config) (p : Platform) (serviceName taskDefArn : String)
    (err : AwsErr) (n : Nat) : List PlatformCall × Except AwsErr String :=
  if err.name = "ServiceNotFoundException" || notFoundIn err.message then
    match p.createServiceResp n with
    | .ok arn =>
      ([PlatformCall.createService (createParamsOf cfg serviceName taskDefArn)], .ok arn)
    | .error createErr =>
      ([PlatformCall.createService (createParamsOf cfg serviceName taskDefArn)],
        .error ⟨"Error", "Failed to create service: " ++ createErr.message⟩)
  else
    ([], .error ⟨"Error", "Failed to check service status: " ++ err.message⟩)

/-- The whole service-reconciliation `try`/`catch` (src/server.js:213-275). -/
def reconcileService (cfg : Config) (p : Platform) (serviceName taskDefArn : String) :
    List PlatformCall × Except AwsErr String :=
  match tryBody cfg p serviceName taskDefArn with
  | (tr, .ok arn, _) => (tr, .ok arn)
  | (tr, .error e, n) =>
    let oc := outerCatch cfg p serviceName taskDefArn e n
    (tr ++ oc.1, oc.2)

/-- src/server.js:150-282 after a successful `ensureLogGroup`: register the
task definition, reconcile the service, assemble the result object. -/
def afterLogGroup (cfg : Config) (p : Platform) (agentId : String)
    (creds : Credentials) (execRole logGroupName : String) :
    List PlatformCall × Except AwsErr DeployOutput :=
  let regP := registerParamsOf cfg execRole agentId creds logGroupName
  let regCalls := [PlatformCall.registerTaskDefinition regP]
  match p.registerTaskDefResp with
  | .error e => (regCalls, .error e)
  | .ok taskDefArn =>
    let rec1 := reconcileService cfg p (serviceNameOf agentId) taskDefArn
    (regCalls ++ rec1.1,
      match rec1.2 with
      | .error e => .error e
      | .ok serviceArn =>
        .ok { serviceArn := serviceArn
              taskDefArn := taskDefArn
              logGroupName := logGroupName
              logUrl := mkLogUrl cfg logGroupName })

/-- `deployToFargate` after the three configuration checks have passed
(src/server.js:134-282). -/
def deployBody (cfg : Config) (p : Platform) (agentId : String)
    (creds : Credentials) (execRole : String) :
    List PlatformCall × Except AwsErr DeployOutput :=
  match ensureLogGroup p agentId with
  | (tr1, .error e) => (tr1, .error e)
  | (tr1, .ok logGroupName) =>
    let rest := afterLogGroup cfg p agentId creds execRole logGroupName
    (tr1 ++ rest.1, rest.2)

/-- `deployToFargate(agentId, credentials)` (src/server.js:120-283),
including the fail-fast configuration validation at lines 124-132
(`!ECS_EXECUTION_ROLE_ARN` is also true for the empty string). -/
def deployToFargate (cfg : Config) (p : Platform) (agentId : String)
    (creds : Credentials) : List PlatformCall × Except AwsErr DeployOutput :=
  if cfg.subnetIds = [] then
    ([], .error ⟨"Error", "SUBNET_IDS environment variable is required"⟩)
  else if cfg.securityGroupIds = [] then
    ([], .error ⟨"Error", "SECURITY_GROUP_IDS environment variable is required"⟩)
  else
    match cfg.ecsExecutionRoleArn with
    | none => ([], .error ⟨"Error", "ECS_EXECUTION_ROLE_ARN environment variable is required"⟩)
    | some execRole =>
      if execRole = "" then
        ([], .error ⟨"Error", "ECS_EXECUTION_ROLE_ARN environment variable is required"⟩)
      else
        deployBody cfg p agentId creds execRole

/-- Response of the AI engine `POST /generate` call (src/server.js:63-66). -/
structure AiEngineResponse where
  success : Bool
  error : Option String
  initialization_code : String
  trigger_code : String
  execution_code : String
  deriving DecidableEq, Repr

/-- The request body posted to the AI engine (src/server.js:63-65). -/
structure AiEngineRequest where
  strategy_description : String
  deriving DecidableEq, Repr

/-- The three code blobs returned by `generateAgentCode` (src/server.js:67-71). -/
structure GeneratedCode where
  initialization_code : String
  trigger_code : String
  execution_code : String
  deriving DecidableEq, Repr

/-- `generateAgentCode(strategyDescription, useTestCode)` (src/server.js:58-72):
line 60 unconditionally overwrites `useTestCode = false`, so the flag is dead;
the AI engine is always called with only the strategy description, and a
falsy `response.data.error` is replaced by a default message.  Returns the
posted request together with the result. -/
def generateAgentCode (ai : AiEngineResponse) (strategyDescription : String)
    (useTestCode : Bool) : AiEngineRequest × Except AwsErr GeneratedCode :=
  let _flagAfterLine60 : Bool := false
  let request : AiEngineRequest := { strategy_description := strategyDescription }
  if ai.success then
    (request,
      .ok { initialization_code := ai.initialization_code
            trigger_code := ai.trigger_code
            execution_code := ai.execution_code })
  else
    (request,
      .error ⟨"Error",
        match ai.error with
        | some s => if s = "" then "Code generation failed" else s
        | none => "Code generation failed"⟩)

/-- Images declared in `RegisterTaskDefinitionCommand` calls of a trace. -/
def registeredImagesOf (tr : List PlatformCall) : List String :=
  tr.filterMap fun pc =>
    match pc with
    | .registerTaskDefinition ps => some ps.image
    | _ => none

/-- Is this call a `CreateServiceCommand`? -/
def isCreateCall : PlatformCall → Bool
  | .createService _ => true
  | _ => false

/-- The service ARN of a deployment result, when it succeeded. -/
def resultServiceArn (r : Except AwsErr DeployOutput) : Option String :=
  match r with
  | .ok o => some o.serviceArn
  | .error _ => none


/-- A representative configuration with one subnet, one security group and a
non-empty execution role. -/
def cfgEx : Config :=
  { awsRegion := "us-east-1"
    ecsCluster := "hyperliquid-agents"
    ecrRepository := "hyperliquid-agent"
    ecrRegistry := "123.dkr.ecr.us-east-1.amazonaws.com"
    subnetIds := ["s-1"]
    securityGroupIds := ["g-1"]
    assignPublicIp := false
    ecsExecutionRoleArn := some "role-arn"
    ecsTaskRoleArn := none
    supabaseUrl := "sb-url"
    supabaseAnonKey := "sb-key" }

/-- `cfgEx` with the subnet list emptied (missing `SUBNET_IDS`). -/
def cfgNoSubnets : Config :=
  { cfgEx with subnetIds := [] }

def creds1 : Credentials := { apiKey := "k1", hyperliquidAddress := "0xabc" }

def creds2 : Credentials := { apiKey := "k2", hyperliquidAddress := "0xdef" }

/-- Platform where everything succeeds and the describe result set is empty. -/
def pAllOk : Platform :=
  { createLogGroupResp := .ok ()
    putRetentionResp := .ok ()
    registerTaskDefResp := .ok "td-arn"
    describeServicesResp := .ok (some [])
    updateServiceResp := .ok "arn-upd"
    deleteServiceResp := .ok ()
    createServiceResp := fun _ => .ok "arn-new" }

/-- Platform where describe finds an ACTIVE service and update succeeds. -/
def pFound : Platform :=
  { pAllOk with describeServicesResp := .ok (some ["ACTIVE"]) }

/-- Platform where describe finds a service, the update is rejected, and the
delete-then-recreate recovery succeeds. -/
def pRecreate : Platform :=
  { pAllOk with
    describeServicesResp := .ok (some ["INACTIVE"])
    updateServiceResp := .error ⟨"Error", "cannot update inactive service"⟩ }

/-- Platform where the log-group creation reports the group already exists and
the retention step fails. -/
def pExists : Platform :=
  { pAllOk with
    createLogGroupResp := .error ⟨"ResourceAlreadyExistsException", "exists"⟩
    putRetentionResp := .error ⟨"Error", "AccessDenied"⟩ }

/-- Platform where the update is rejected and the forced delete itself raises
an error whose message happens to contain `not found`. -/
def p1b : Platform :=
  { pAllOk with
    describeServicesResp := .ok (some ["ACTIVE"])
    updateServiceResp := .error ⟨"Error", "Rate exceeded"⟩
    deleteServiceResp := .error ⟨"Error", "service not found"⟩
    createServiceResp := fun _ => .ok "arn-recovered" }

/-- Platform where the update is rejected, the delete succeeds, and the
recreate raises an error whose message happens to contain `not found`; the
second create attempt (from the outer catch) succeeds. -/
def p9 : Platform :=
  { pAllOk with
    describeServicesResp := .ok (some ["INACTIVE"])
    updateServiceResp := .error ⟨"Error", "cannot update"⟩
    deleteServiceResp := .ok ()
    createServiceResp := fun n =>
      if n = 0 then .error ⟨"Error", "target group not found"⟩ else .ok "arn-2" }

lemma ensureLogGroup_calls (p : Platform) (a : String) :
    ∀ pc ∈ (ensureLogGroup p a).1,
      pc = PlatformCall.createLogGroup (logGroupNameOf a) ∨
      pc = PlatformCall.putRetentionPolicy (logGroupNameOf a) 30 := by
  intro pc h
  unfold ensureLogGroup at h
  cases hc : p.createLogGroupResp with
  | error e =>
    by_cases hn : e.name ≠ "ResourceAlreadyExistsException"
    · simp [hc, hn] at h; simp [h]
    · cases hr : p.putRetentionResp <;> simp [hc, hn, hr] at h <;> tauto
  | ok u =>
    cases hr : p.putRetentionResp <;> simp [hc, hr] at h <;> tauto

lemma tryBody_calls (cfg : Config) (p : Platform) (s td : String) :
    ∀ pc ∈ (tryBody cfg p s td).1,
      pc = PlatformCall.describeServices cfg.ecsCluster s ∨
      pc = PlatformCall.updateService (updateParamsOf cfg s td) ∨
      pc = PlatformCall.deleteService (deleteParamsOf cfg s) ∨
      pc = PlatformCall.waitMs 2000 ∨
      pc = PlatformCall.createService (createParamsOf cfg s td) := by
  intro pc h
  unfold tryBody at h
  cases hd : p.describeServicesResp with
  | error e => simp [hd] at h; tauto
  | ok o =>
    cases o with
    | none => cases hcr : p.createServiceResp 0 <;> simp [hd, hcr] at h <;> tauto
    | some svcs =>
      by_cases hl : svcs.length > 0
      · cases hu : p.updateServiceResp with
        | ok arn => simp [hd, hl, hu] at h; tauto
        | error ue =>
          cases hdel : p.deleteServiceResp with
          | error de => simp [hd, hl, hu, hdel] at h; tauto
          | ok u =>
            cases hcr : p.createServiceResp 0 <;> simp [hd, hl, hu, hdel, hcr] at h <;> tauto
      · cases hcr : p.createServiceResp 0 <;> simp [hd, hl, hcr] at h <;> tauto

lemma tryBody_delete (cfg : Config) (p : Platform) (s td : String) (dp : DeleteServiceParams)
    (h : PlatformCall.deleteService dp ∈ (tryBody cfg p s td).1) :
    ∃ e, p.updateServiceResp = .error e ∧
      PlatformCall.updateService (updateParamsOf cfg s td) ∈ (tryBody cfg p s td).1 := by
  unfold tryBody at h ⊢
  cases hd : p.describeServicesResp with
  | error e => simp [hd] at h
  | ok o =>
    cases o with
    | none => cases hcr : p.createServiceResp 0 <;> simp [hd, hcr] at h
    | some svcs =>
      by_cases hl : svcs.length > 0
      · cases hu : p.updateServiceResp with
        | ok arn => simp [hd, hl, hu] at h
        | error ue =>
          refine ⟨ue, rfl, ?_⟩
          cases hdel : p.deleteServiceResp with
          | error de => simp [hd, hl, hu, hdel]
          | ok u => cases hcr : p.createServiceResp 0 <;> simp [hd, hl, hu, hdel, hcr]
      · cases hcr : p.createServiceResp 0 <;> simp [hd, hl, hcr] at h

lemma outerCatch_calls (cfg : Config) (p : Platform) (s td : String) (e : AwsErr) (n : Nat) :
    ∀ pc ∈ (outerCatch cfg p s td e n).1,
      pc = PlatformCall.createService (createParamsOf cfg s td) := by
  intro pc h
  unfold outerCatch at h
  by_cases hb : (e.name = "ServiceNotFoundException" || notFoundIn e.message) = true
  · cases hcr : p.createServiceResp n <;> simp [hb, hcr] at h <;> exact h
  · simp [hb] at h

lemma reconcileService_calls (cfg : Config) (p : Platform) (s td : String) :
    ∀ pc ∈ (reconcileService cfg p s td).1,
      pc = PlatformCall.describeServices cfg.ecsCluster s ∨
      pc = PlatformCall.updateService (updateParamsOf cfg s td) ∨
      pc = PlatformCall.deleteService (deleteParamsOf cfg s) ∨
      pc = PlatformCall.waitMs 2000 ∨
      pc = PlatformCall.createService (createParamsOf cfg s td) := by
  intro pc h
  unfold reconcileService at h
  rcases htb : tryBody cfg p s td with ⟨tr, r, n⟩
  rw [htb] at h
  cases r with
  | ok arn =>
    simp at h
    exact tryBody_calls cfg p s td pc (by rw [htb]; exact h)
  | error e =>
    simp [List.mem_append] at h
    rcases h with h | h
    · exact tryBody_calls cfg p s td pc (by rw [htb]; exact h)
    · have := outerCatch_calls cfg p s td e n pc h
      tauto

lemma reconcileService_delete (cfg : Config) (p : Platform) (s td : String)
    (dp : DeleteServiceParams)
    (h : PlatformCall.deleteService dp ∈ (reconcileService cfg p s td).1) :
    ∃ e, p.updateServiceResp = .error e ∧
      PlatformCall.updateService (updateParamsOf cfg s td) ∈ (reconcileService cfg p s td).1 := by
  unfold reconcileService tryBody at h ⊢
  cases hd : p.describeServicesResp with
  | error e =>
    by_cases hb : (e.name = "ServiceNotFoundException" || notFoundIn e.message) = true
    · cases hcr : p.createServiceResp 0 <;> simp [hd, outerCatch, hb, hcr] at h
    · simp [hd, outerCatch, hb] at h
  | ok o =>
    cases o with
    | none =>
      cases hcr : p.createServiceResp 0 with
      | ok arn => simp [hd, hcr] at h
      | error e =>
        by_cases hb : (e.name = "ServiceNotFoundException" || notFoundIn e.message) = true
        · cases hcr1 : p.createServiceResp 1 <;> simp [hd, outerCatch, hb, hcr, hcr1] at h
        · simp [hd, outerCatch, hb, hcr] at h
    | some svcs =>
      by_cases hl : svcs.length > 0
      · cases hu : p.updateServiceResp with
        | ok arn => simp [hd, hl, hu] at h
        | error ue =>
          cases hdel : p.deleteServiceResp with
          | error de =>
            by_cases hb : ((combineUpdateDeleteErr ue de).name = "ServiceNotFoundException" ||
                notFoundIn (combineUpdateDeleteErr ue de).message) = true
            · cases hcr : p.createServiceResp 0 <;>
                simp [hd, hl, hu, hdel, outerCatch, hb, hcr]
            · simp [hd, hl, hu, hdel, outerCatch, hb]
          | ok u =>
            cases hcr : p.createServiceResp 0 with
            | ok arn => simp [hd, hl, hu, hdel, hcr]
            | error ce =>
              by_cases hb : ((combineUpdateDeleteErr ue ce).name = "ServiceNotFoundException" ||
                  notFoundIn (combineUpdateDeleteErr ue ce).message) = true
              · cases hcr1 : p.createServiceResp 1 <;>
                  simp [hd, hl, hu, hdel, outerCatch, hb, hcr, hcr1]
              · simp [hd, hl, hu, hdel, outerCatch, hb, hcr]
      · cases hcr : p.createServiceResp 0 with
        | ok arn => simp [hd, hl, hcr] at h
        | error e =>
          by_cases hb : (e.name = "ServiceNotFoundException" || notFoundIn e.message) = true
          · cases hcr1 : p.createServiceResp 1 <;> simp [hd, hl, outerCatch, hb, hcr, hcr1] at h
          · simp [hd, hl, outerCatch, hb, hcr] at h

lemma ensureLogGroup_ok (p : Platform) (a lg : String)
    (h : (ensureLogGroup p a).2 = .ok lg) : lg = logGroupNameOf a := by
  unfold ensureLogGroup at h
  cases hc : p.createLogGroupResp with
  | error e =>
    by_cases hn : e.name ≠ "ResourceAlreadyExistsException"
    · simp [hc, hn] at h
    · cases hr : p.putRetentionResp <;> simp [hc, hn, hr] at h <;> exact h.symm
  | ok u =>
    cases hr : p.putRetentionResp <;> simp [hc, hr] at h <;> exact h.symm

lemma afterLogGroup_calls (cfg : Config) (p : Platform) (a : String) (c : Credentials)
    (er lg : String) :
    ∀ pc ∈ (afterLogGroup cfg p a c er lg).1,
      pc = PlatformCall.registerTaskDefinition (registerParamsOf cfg er a c lg) ∨
      pc = PlatformCall.describeServices cfg.ecsCluster (serviceNameOf a) ∨
      (∃ td, pc = PlatformCall.updateService (updateParamsOf cfg (serviceNameOf a) td)) ∨
      pc = PlatformCall.deleteService (deleteParamsOf cfg (serviceNameOf a)) ∨
      pc = PlatformCall.waitMs 2000 ∨
      (∃ td, pc = PlatformCall.createService (createParamsOf cfg (serviceNameOf a) td)) := by
  intro pc h
  unfold afterLogGroup at h
  cases hreg : p.registerTaskDefResp with
  | error e => simp [hreg] at h; simp [h]
  | ok td =>
    simp only [hreg, List.cons_append, List.nil_append, List.mem_cons] at h
    rcases h with h | h
    · simp [h]
    · rcases reconcileService_calls cfg p (serviceNameOf a) td pc h with
        h1 | h1 | h1 | h1 | h1 <;> subst h1 <;> simp

lemma afterLogGroup_delete (cfg : Config) (p : Platform) (a : String) (c : Credentials)
    (er lg : String) (dp : DeleteServiceParams)
    (h : PlatformCall.deleteService dp ∈ (afterLogGroup cfg p a c er lg).1) :
    ∃ e, p.updateServiceResp = .error e ∧
      ∃ td, PlatformCall.updateService (updateParamsOf cfg (serviceNameOf a) td) ∈
        (afterLogGroup cfg p a c er lg).1 := by
  unfold afterLogGroup at h ⊢
  cases hreg : p.registerTaskDefResp with
  | error e => simp [hreg] at h
  | ok td =>
    simp only [hreg, List.cons_append, List.nil_append, List.mem_cons] at h
    rcases h with h | h
    · exact absurd h (by simp)
    · rcases reconcileService_delete cfg p (serviceNameOf a) td dp h with ⟨e, he, hm⟩
      exact ⟨e, he, td, by simp [hm]⟩

lemma deployBody_calls (cfg : Config) (p : Platform) (a : String) (c : Credentials)
    (er : String) :
    ∀ pc ∈ (deployBody cfg p a c er).1,
      pc = PlatformCall.createLogGroup (logGroupNameOf a) ∨
      pc = PlatformCall.putRetentionPolicy (logGroupNameOf a) 30 ∨
      pc = PlatformCall.registerTaskDefinition
        (registerParamsOf cfg er a c (logGroupNameOf a)) ∨
      pc = PlatformCall.describeServices cfg.ecsCluster (serviceNameOf a) ∨
      (∃ td, pc = PlatformCall.updateService (updateParamsOf cfg (serviceNameOf a) td)) ∨
      pc = PlatformCall.deleteService (deleteParamsOf cfg (serviceNameOf a)) ∨
      pc = PlatformCall.waitMs 2000 ∨
      (∃ td, pc = PlatformCall.createService (createParamsOf cfg (serviceNameOf a) td)) := by
  intro pc h
  unfold deployBody at h
  rcases he : ensureLogGroup p a with ⟨tr1, r1⟩
  have htr1 : (ensureLogGroup p a).1 = tr1 := by rw [he]
  rw [he] at h
  cases r1 with
  | error e =>
    simp at h
    rcases ensureLogGroup_calls p a pc (htr1 ▸ h) with h1 | h1 <;> simp [h1]
  | ok lg =>
    have hlg : lg = logGroupNameOf a :=
      ensureLogGroup_ok p a lg (by rw [he])
    subst hlg
    simp only [List.mem_append] at h
    rcases h with h | h
    · rcases ensureLogGroup_calls p a pc (htr1 ▸ h) with h1 | h1 <;> simp [h1]
    · rcases afterLogGroup_calls cfg p a c er (logGroupNameOf a) pc h with
        h1 | h1 | h1 | h1 | h1 | h1 <;> simp [h1]

lemma deployBody_delete (cfg : Config) (p : Platform) (a : String) (c : Credentials)
    (er : String) (dp : DeleteServiceParams)
    (h : PlatformCall.deleteService dp ∈ (deployBody cfg p a c er).1) :
    ∃ e, p.updateServiceResp = .error e ∧
      ∃ td, PlatformCall.updateService (updateParamsOf cfg (serviceNameOf a) td) ∈
        (deployBody cfg p a c er).1 := by
  unfold deployBody at h ⊢
  rcases he : ensureLogGroup p a with ⟨tr1, r1⟩
  have htr1 : (ensureLogGroup p a).1 = tr1 := by rw [he]
  rw [he] at h
  cases r1 with
  | error e =>
    simp at h
    rcases ensureLogGroup_calls p a _ (htr1 ▸ h) with h1 | h1 <;> simp at h1
  | ok lg =>
    simp only [List.mem_append] at h
    rcases h with h | h
    · rcases ensureLogGroup_calls p a _ (htr1 ▸ h) with h1 | h1 <;> simp at h1
    · rcases afterLogGroup_delete cfg p a c er lg dp h with ⟨e, he2, td, hm⟩
      refine ⟨e, he2, td, ?_⟩
      simp only [List.mem_append]
      exact Or.inr hm

lemma deployToFargate_calls (cfg : Config) (p : Platform) (a : String) (c : Credentials) :
    ∀ pc ∈ (deployToFargate cfg p a c).1,
      pc = PlatformCall.createLogGroup (logGroupNameOf a) ∨
      pc = PlatformCall.putRetentionPolicy (logGroupNameOf a) 30 ∨
      (∃ role, cfg.ecsExecutionRoleArn = some role ∧
        pc = PlatformCall.registerTaskDefinition
          (registerParamsOf cfg role a c (logGroupNameOf a))) ∨
      pc = PlatformCall.describeServices cfg.ecsCluster (serviceNameOf a) ∨
      (∃ td, pc = PlatformCall.updateService (updateParamsOf cfg (serviceNameOf a) td)) ∨
      pc = PlatformCall.deleteService (deleteParamsOf cfg (serviceNameOf a)) ∨
      pc = PlatformCall.waitMs 2000 ∨
      (∃ td, pc = PlatformCall.createService (createParamsOf cfg (serviceNameOf a) td)) := by
  intro pc h
  unfold deployToFargate at h
  by_cases h1 : cfg.subnetIds = []
  · simp [h1] at h
  · by_cases h2 : cfg.securityGroupIds = []
    · simp [h1, h2] at h
    · cases h3 : cfg.ecsExecutionRoleArn with
      | none => simp [h1, h2, h3] at h
      | some er =>
        by_cases h4 : er = ""
        · simp [h1, h2, h3, h4] at h
        · simp only [if_neg h1, if_neg h2, h3, if_neg h4] at h
          rcases deployBody_calls cfg p a c er pc h with g | g | g | g | g | g | g | g
          · exact Or.inl g
          · exact Or.inr (Or.inl g)
          · exact Or.inr (Or.inr (Or.inl ⟨er, rfl, g⟩))
          · exact Or.inr (Or.inr (Or.inr (Or.inl g)))
          · exact Or.inr (Or.inr (Or.inr (Or.inr (Or.inl g))))
          · exact Or.inr (Or.inr (Or.inr (Or.inr (Or.inr (Or.inl g)))))
          · exact Or.inr (Or.inr (Or.inr (Or.inr (Or.inr (Or.inr (Or.inl g))))))
          · exact Or.inr (Or.inr (Or.inr (Or.inr (Or.inr (Or.inr (Or.inr g))))))

lemma deployToFargate_delete (cfg : Config) (p : Platform) (a : String) (c : Credentials)
    (dp : DeleteServiceParams)
    (h : PlatformCall.deleteService dp ∈ (deployToFargate cfg p a c).1) :
    ∃ e, p.updateServiceResp = .error e ∧
      ∃ td, PlatformCall.updateService (updateParamsOf cfg (serviceNameOf a) td) ∈
        (deployToFargate cfg p a c).1 := by
  unfold deployToFargate at h ⊢
  by_cases h1 : cfg.subnetIds = []
  · simp [h1] at h
  · by_cases h2 : cfg.securityGroupIds = []
    · simp [h1, h2] at h
    · cases h3 : cfg.ecsExecutionRoleArn with
      | none => simp [h1, h2, h3] at h
      | some er =>
        by_cases h4 : er = ""
        · simp [h1, h2, h3, h4] at h
        · simp only [if_neg h1, if_neg h2, h3, if_neg h4] at h ⊢
          exact deployBody_delete cfg p a c er dp h



/-- C2: Both ways the platform can signal service absence — an empty describe
result set, and a distinguished `ServiceNotFoundException` — lead to a fresh
`CreateServiceCommand`, and the resulting service handle is returned. -/
theorem C2_absent_signals_create (cfg : Config) (p : Platform) (agentId : String)
    (creds : Credentials) (td arn m : String)
    (hs : cfg.subnetIds ≠ []) (hg : cfg.securityGroupIds ≠ [])
    (hr : ∃ role, cfg.ecsExecutionRoleArn = some role ∧ role ≠ "")
    (hl : p.createLogGroupResp = .ok ())
    (ht : p.registerTaskDefResp = .ok td)
    (hd : p.describeServicesResp = .ok (some []) ∨
          p.describeServicesResp = .error ⟨"ServiceNotFoundException", m⟩)
    (hc : p.createServiceResp 0 = .ok arn) :
    PlatformCall.createService (createParamsOf cfg (serviceNameOf agentId) td) ∈
        (deployToFargate cfg p agentId creds).1 ∧
      ∃ out, (deployToFargate cfg p agentId creds).2 = .ok out ∧ out.serviceArn = arn := by
  rcases hr with ⟨role, hrole, hne⟩
  unfold deployToFargate deployBody afterLogGroup reconcileService tryBody outerCatch
  rcases hd with hd | hd <;>
    cases hret : p.putRetentionResp <;>
      simp [ensureLogGroup, if_neg hs, if_neg hg, hrole, if_neg hne, hl, hret, ht, hd, hc]


theorem C2_witness :
    PlatformCall.createService (createParamsOf cfgEx (serviceNameOf "a1") "td-arn") ∈
        (deployToFargate cfgEx pAllOk "a1" creds1).1 ∧
      ∃ out, (deployToFargate cfgEx pAllOk "a1" creds1).2 = .ok out ∧
        out.serviceArn = "arn-new" :=
  C2_absent_signals_create cfgEx pAllOk "a1" creds1 "td-arn" "arn-new" ""
    (by decide) (by decide) ⟨"role-arn", rfl, by decide⟩ rfl rfl (Or.inl rfl) rfl

/-- C4: With an empty placement or a missing execution-identity reference the
deployment fails with a configuration error and issues no platform call. -/
theorem C4_fail_fast (cfg : Config) (p : Platform) (agentId : String)
    (creds : Credentials)
    (h : cfg.subnetIds = [] ∨ cfg.securityGroupIds = [] ∨
         cfg.ecsExecutionRoleArn = none) :
    (deployToFargate cfg p agentId creds).1 = [] ∧
      ∃ e, (deployToFargate cfg p agentId creds).2 = .error e ∧
        (e.message = "SUBNET_IDS environment variable is required" ∨
         e.message = "SECURITY_GROUP_IDS environment variable is required" ∨
         e.message = "ECS_EXECUTION_ROLE_ARN environment variable is required") := by
  unfold deployToFargate
  rcases h with h | h | h
  · simp [h]
  · by_cases h1 : cfg.subnetIds = [] <;> simp [h1, h]
  · by_cases h1 : cfg.subnetIds = []
    · simp [h1]
    · by_cases h2 : cfg.securityGroupIds = [] <;> simp [h1, h2, h]

theorem C4_witness :
    (deployToFargate cfgNoSubnets pAllOk "a1" creds1).1 = [] ∧
      ∃ e, (deployToFargate cfgNoSubnets pAllOk "a1" creds1).2 = .error e ∧
        (e.message = "SUBNET_IDS environment variable is required" ∨
         e.message = "SECURITY_GROUP_IDS environment variable is required" ∨
         e.message = "ECS_EXECUTION_ROLE_ARN environment variable is required") :=
  C4_fail_fast cfgNoSubnets pAllOk "a1" creds1 (Or.inl rfl)

lemma tryBody_found_update (cfg : Config) (p : Platform) (s td : String)
    (svcs : List String)
    (hd : p.describeServicesResp = .ok (some svcs)) (hl : svcs.length > 0) :
    PlatformCall.updateService (updateParamsOf cfg s td) ∈ (tryBody cfg p s td).1 := by
  unfold tryBody
  cases hu : p.updateServiceResp with
  | ok arn => simp [hd, hl, hu]
  | error ue =>
    cases hdel : p.deleteServiceResp with
    | error de => simp [hd, hl, hu, hdel]
    | ok u => cases hcr : p.createServiceResp 0 <;> simp [hd, hl, hu, hdel, hcr]

lemma reconcileService_mem_left (cfg : Config) (p : Platform) (s td : String)
    (pc : PlatformCall) (h : pc ∈ (tryBody cfg p s td).1) :
    pc ∈ (reconcileService cfg p s td).1 := by
  unfold reconcileService
  rcases htb : tryBody cfg p s td with ⟨tr, r, n⟩
  rw [htb] at h
  cases r <;> simp at h ⊢ <;> simp [h]

lemma tryBody_delete_shape (cfg : Config) (p : Platform) (s td : String)
    (dp : DeleteServiceParams)
    (h : PlatformCall.deleteService dp ∈ (tryBody cfg p s td).1) :
    ∃ e rest, p.updateServiceResp = .error e ∧
      (tryBody cfg p s td).1 =
        PlatformCall.describeServices cfg.ecsCluster s ::
          PlatformCall.updateService (updateParamsOf cfg s td) ::
          PlatformCall.deleteService (deleteParamsOf cfg s) :: rest := by
  unfold tryBody at h ⊢
  cases hd : p.describeServicesResp with
  | error e => simp [hd] at h
  | ok o =>
    cases o with
    | none => cases hcr : p.createServiceResp 0 <;> simp [hd, hcr] at h
    | some svcs =>
      by_cases hl : svcs.length > 0
      · cases hu : p.updateServiceResp with
        | ok arn => simp [hd, hl, hu] at h
        | error ue =>
          refine ⟨ue, ?_⟩
          cases hdel : p.deleteServiceResp with
          | error de => exact ⟨[], rfl, by simp [hd, hl, hu, hdel]⟩
          | ok u =>
            cases hcr : p.createServiceResp 0 <;>
              exact ⟨[PlatformCall.waitMs 2000,
                PlatformCall.createService (createParamsOf cfg s td)], rfl,
                by simp [hd, hl, hu, hdel, hcr]⟩
      · cases hcr : p.createServiceResp 0 <;> simp [hd, hl, hcr] at h

lemma reconcileService_delete_shape (cfg : Config) (p : Platform) (s td : String)
    (dp : DeleteServiceParams)
    (h : PlatformCall.deleteService dp ∈ (reconcileService cfg p s td).1) :
    ∃ e pre post, p.updateServiceResp = .error e ∧
      (reconcileService cfg p s td).1 =
        pre ++ PlatformCall.updateService (updateParamsOf cfg s td) ::
          PlatformCall.deleteService (deleteParamsOf cfg s) :: post := by
  unfold reconcileService at h ⊢
  rcases htb : tryBody cfg p s td with ⟨tr, r, n⟩
  have htr : (tryBody cfg p s td).1 = tr := by rw [htb]
  rw [htb] at h
  cases r with
  | ok arn =>
    simp only [List.mem_singleton] at h
    rcases tryBody_delete_shape cfg p s td dp (htr ▸ h) with ⟨e, rest, he, hsh⟩
    rw [htr] at hsh
    exact ⟨e, [PlatformCall.describeServices cfg.ecsCluster s], rest, he, by simp [hsh]⟩
  | error e2 =>
    simp only [List.mem_append] at h
    rcases h with h | h
    · rcases tryBody_delete_shape cfg p s td dp (htr ▸ h) with ⟨e, rest, he, hsh⟩
      rw [htr] at hsh
      refine ⟨e, [PlatformCall.describeServices cfg.ecsCluster s],
        rest ++ (outerCatch cfg p s td e2 n).1, he, ?_⟩
      simp [hsh]
    · have := outerCatch_calls cfg p s td e2 n _ h
      simp at this

lemma afterLogGroup_delete_shape (cfg : Config) (p : Platform) (a : String)
    (c : Credentials) (er lg : String) (dp : DeleteServiceParams)
    (h : PlatformCall.deleteService dp ∈ (afterLogGroup cfg p a c er lg).1) :
    ∃ e td pre post, p.updateServiceResp = .error e ∧
      (afterLogGroup cfg p a c er lg).1 =
        pre ++ PlatformCall.updateService (updateParamsOf cfg (serviceNameOf a) td) ::
          PlatformCall.deleteService (deleteParamsOf cfg (serviceNameOf a)) :: post := by
  unfold afterLogGroup at h ⊢
  cases hreg : p.registerTaskDefResp with
  | error e => simp [hreg] at h
  | ok td =>
    simp only [hreg, List.cons_append, List.nil_append, List.mem_cons] at h
    rcases h with h | h
    · exact absurd h (by simp)
    · rcases reconcileService_delete_shape cfg p (serviceNameOf a) td dp h with
        ⟨e, pre, post, he, hsh⟩
      exact ⟨e, td,
        PlatformCall.registerTaskDefinition (registerParamsOf cfg er a c lg) :: pre,
        post, he, by simp [hsh]⟩

lemma deployBody_delete_shape (cfg : Config) (p : Platform) (a : String)
    (c : Credentials) (er : String) (dp : DeleteServiceParams)
    (h : PlatformCall.deleteService dp ∈ (deployBody cfg p a c er).1) :
    ∃ e td pre post, p.updateServiceResp = .error e ∧
      (deployBody cfg p a c er).1 =
        pre ++ PlatformCall.updateService (updateParamsOf cfg (serviceNameOf a) td) ::
          PlatformCall.deleteService (deleteParamsOf cfg (serviceNameOf a)) :: post := by
  unfold deployBody at h ⊢
  rcases he : ensureLogGroup p a with ⟨tr1, r1⟩
  have htr1 : (ensureLogGroup p a).1 = tr1 := by rw [he]
  rw [he] at h
  cases r1 with
  | error e =>
    simp at h
    rcases ensureLogGroup_calls p a _ (htr1 ▸ h) with h1 | h1 <;> simp at h1
  | ok lg =>
    simp only [List.mem_append] at h
    rcases h with h | h
    · rcases ensureLogGroup_calls p a _ (htr1 ▸ h) with h1 | h1 <;> simp at h1
    · rcases afterLogGroup_delete_shape cfg p a c er lg dp h with
        ⟨e, td, pre, post, he2, hsh⟩
      exact ⟨e, td, tr1 ++ pre, post, he2, by simp [hsh]⟩

lemma deployToFargate_delete_shape (cfg : Config) (p : Platform) (a : String)
    (c : Credentials) (dp : DeleteServiceParams)
    (h : PlatformCall.deleteService dp ∈ (deployToFargate cfg p a c).1) :
    ∃ e td pre post, p.updateServiceResp = .error e ∧
      (deployToFargate cfg p a c).1 =
        pre ++ PlatformCall.updateService (updateParamsOf cfg (serviceNameOf a) td) ::
          PlatformCall.deleteService (deleteParamsOf cfg (serviceNameOf a)) :: post := by
  unfold deployToFargate at h ⊢
  by_cases h1 : cfg.subnetIds = []
  · simp [h1] at h
  · by_cases h2 : cfg.securityGroupIds = []
    · simp [h1, h2] at h
    · cases h3 : cfg.ecsExecutionRoleArn with
      | none => simp [h1, h2, h3] at h
      | some er =>
        by_cases h4 : er = ""
        · simp [h1, h2, h3, h4] at h
        · simp only [if_neg h1, if_neg h2, h3, if_neg h4] at h ⊢
          exact deployBody_delete_shape cfg p a c er dp h

/-- C5: Whenever describe finds an existing service the reconciler attempts an
in-place update; every update request sets `forceNewDeployment`; and a delete
is only ever issued after that update attempt has failed. -/
theorem C5_update_before_delete (cfg : Config) (p : Platform) (agentId : String)
    (creds : Credentials) :
    (∀ role td svcs, cfg.subnetIds ≠ [] → cfg.securityGroupIds ≠ [] →
        cfg.ecsExecutionRoleArn = some role → role ≠ "" →
        p.createLogGroupResp = .ok () → p.registerTaskDefResp = .ok td →
        p.describeServicesResp = .ok (some svcs) → svcs ≠ [] →
        PlatformCall.updateService (updateParamsOf cfg (serviceNameOf agentId) td) ∈
          (deployToFargate cfg p agentId creds).1) ∧
    (∀ ps : UpdateServiceParams,
        PlatformCall.updateService ps ∈ (deployToFargate cfg p agentId creds).1 →
        ps.forceNewDeployment = true) ∧
    (∀ dp : DeleteServiceParams,
        PlatformCall.deleteService dp ∈ (deployToFargate cfg p agentId creds).1 →
        ∃ e td pre post, p.updateServiceResp = .error e ∧
          (deployToFargate cfg p agentId creds).1 =
            pre ++ PlatformCall.updateService (updateParamsOf cfg (serviceNameOf agentId) td) ::
              PlatformCall.deleteService (deleteParamsOf cfg (serviceNameOf agentId)) :: post) := by
  refine ⟨?_, ?_, ?_⟩
  · intro role td svcs hs hg hrole hne hl ht hd hsv
    have hlen : svcs.length > 0 := List.length_pos.mpr hsv
    have hm := reconcileService_mem_left cfg p (serviceNameOf agentId) td _
      (tryBody_found_update cfg p (serviceNameOf agentId) td svcs hd hlen)
    unfold deployToFargate deployBody afterLogGroup
    cases hret : p.putRetentionResp <;>
      simp [ensureLogGroup, if_neg hs, if_neg hg, hrole, if_neg hne, hl, hret, ht, hm]
  · intro ps hps
    rcases deployToFargate_calls cfg p agentId creds _ hps with
      g | g | ⟨role, _, g⟩ | g | ⟨td, g⟩ | g | g | ⟨td, g⟩ <;> cases g <;> rfl
  · exact fun dp h => deployToFargate_delete_shape cfg p agentId creds dp h

theorem C5_witness :
    PlatformCall.updateService (updateParamsOf cfgEx (serviceNameOf "a1") "td-arn") ∈
        (deployToFargate cfgEx pFound "a1" creds1).1 ∧
      (updateParamsOf cfgEx (serviceNameOf "a1") "td-arn").forceNewDeployment = true := by
  constructor
  · exact (C5_update_before_delete cfgEx pFound "a1" creds1).1 "role-arn" "td-arn"
      ["ACTIVE"] (by decide) (by decide) rfl (by decide) rfl rfl rfl (by decide)
  · exact (C5_update_before_delete cfgEx pFound "a1" creds1).2.1 _ (by decide)

/-- C6: Every `CreateServiceCommand` and every `UpdateServiceCommand` issued
by the reconciler requests `desiredCount = 1`, `maximumPercent = 200` and
`minimumHealthyPercent = 100`. -/
theorem C6_rollout_policy (cfg : Config) (p : Platform) (agentId : String)
    (creds : Credentials) :
    (∀ ps : CreateServiceParams,
        PlatformCall.createService ps ∈ (deployToFargate cfg p agentId creds).1 →
        ps.desiredCount = 1 ∧ ps.maximumPercent = 200 ∧ ps.minimumHealthyPercent = 100) ∧
    (∀ ps : UpdateServiceParams,
        PlatformCall.updateService ps ∈ (deployToFargate cfg p agentId creds).1 →
        ps.desiredCount = 1 ∧ ps.maximumPercent = 200 ∧ ps.minimumHealthyPercent = 100) := by
  constructor <;> intro ps hps <;>
    rcases deployToFargate_calls cfg p agentId creds _ hps with
      g | g | ⟨role, _, g⟩ | g | ⟨td, g⟩ | g | g | ⟨td, g⟩ <;> cases g <;>
    exact ⟨rfl, rfl, rfl⟩

theorem C6_witness :
    ((createParamsOf cfgEx (serviceNameOf "a1") "td-arn").desiredCount = 1 ∧
      (createParamsOf cfgEx (serviceNameOf "a1") "td-arn").maximumPercent = 200 ∧
      (createParamsOf cfgEx (serviceNameOf "a1") "td-arn").minimumHealthyPercent = 100) ∧
    ((updateParamsOf cfgEx (serviceNameOf "a1") "td-arn").desiredCount = 1 ∧
      (updateParamsOf cfgEx (serviceNameOf "a1") "td-arn").maximumPercent = 200 ∧
      (updateParamsOf cfgEx (serviceNameOf "a1") "td-arn").minimumHealthyPercent = 100) :=
  ⟨(C6_rollout_policy cfgEx pRecreate "a1" creds1).1 _ (by decide),
   (C6_rollout_policy cfgEx pRecreate "a1" creds1).2 _ (by decide)⟩


/-- C7: Log-channel provisioning treats an already-exists creation error as
success; a failing retention step is still attempted but never aborts the
call, the channel handle being returned anyway; any other creation error is
fatal and propagated. -/
theorem C7_log_group_idempotent (p : Platform) (agentId : String) :
    (∀ e, p.createLogGroupResp = .error e →
        e.name = "ResourceAlreadyExistsException" →
        (ensureLogGroup p agentId).2 = .ok (logGroupNameOf agentId)) ∧
    (∀ r, p.createLogGroupResp = .ok () → p.putRetentionResp = .error r →
        (ensureLogGroup p agentId).2 = .ok (logGroupNameOf agentId) ∧
        PlatformCall.putRetentionPolicy (logGroupNameOf agentId) 30 ∈
          (ensureLogGroup p agentId).1) ∧
    (∀ e, p.createLogGroupResp = .error e →
        e.name ≠ "ResourceAlreadyExistsException" →
        (ensureLogGroup p agentId).2 = .error e) := by
  refine ⟨?_, ?_, ?_⟩
  · intro e he hn
    unfold ensureLogGroup
    cases hret : p.putRetentionResp <;> simp [he, hn, hret]
  · intro r hc hret
    unfold ensureLogGroup
    simp [hc, hret]
  · intro e he hn
    unfold ensureLogGroup
    simp [he, hn]

theorem C7_witness :
    (ensureLogGroup pExists "a1").2 = .ok (logGroupNameOf "a1") :=
  (C7_log_group_idempotent pExists "a1").1 ⟨"ResourceAlreadyExistsException", "exists"⟩
    rfl rfl

/-- C3 counterexample: the derived names are not those the claim states — the
task family for `a1` is `hyperliquid-agent-a1`, not `agent-a1`; the log
channel is `/ecs/hyperliquid-agents/a1`, not `/agents/a1`; and the returned
log-viewer location does not contain `/agents/a1`. -/
theorem C3_naming_cex :
    taskFamilyOf "a1" ≠ "agent-a1" ∧
    logGroupNameOf "a1" ≠ "/agents/a1" ∧
    strContains "/agents/a1" (mkLogUrl cfgEx (logGroupNameOf "a1")) = false := by
  decide

/-- C3 amended: task family is `hyperliquid-agent-<x>`, service name is
`agent-svc-<x>`, log channel is `/ecs/hyperliquid-agents/<x>`; the log-viewer
location for `a1` contains the URL-encoded channel (`hyperliquid-agents%2Fa1`)
rather than `/agents/a1`. -/
theorem C3_naming_amended :
    (∀ x : String, taskFamilyOf x = "hyperliquid-agent-" ++ x ∧
        serviceNameOf x = "agent-svc-" ++ x ∧
        logGroupNameOf x = "/ecs/hyperliquid-agents/" ++ x) ∧
    strContains "hyperliquid-agents%2Fa1" (mkLogUrl cfgEx (logGroupNameOf "a1")) = true :=
  ⟨fun x => ⟨rfl, rfl, rfl⟩, by decide⟩

/-- C8 counterexample: two deployments that differ in every caller-supplied
input register the same, configuration-derived container image — there is no
caller-supplied image reference at all. -/
theorem C8_image_cex :
    registeredImagesOf (deployToFargate cfgEx pAllOk "a1" creds1).1 =
      ["123.dkr.ecr.us-east-1.amazonaws.com/hyperliquid-agent:latest"] ∧
    registeredImagesOf (deployToFargate cfgEx pAllOk "a2" creds2).1 =
      ["123.dkr.ecr.us-east-1.amazonaws.com/hyperliquid-agent:latest"] := by
  decide

/-- C8 amended: the registered container image is always
`<ECR_REGISTRY>/<ECR_REPOSITORY>:latest`, derived from the environment
configuration and independent of the caller-supplied agent identity and
credentials. -/
theorem C8_image_amended (cfg : Config) (p : Platform) (agentId : String)
    (creds : Credentials) (ps : RegisterTaskDefParams)
    (h : PlatformCall.registerTaskDefinition ps ∈ (deployToFargate cfg p agentId creds).1) :
    ps.image = cfg.ecrRegistry ++ "/" ++ cfg.ecrRepository ++ ":latest" := by
  rcases deployToFargate_calls cfg p agentId creds _ h with
    g | g | ⟨role, _, g⟩ | g | ⟨td, g⟩ | g | g | ⟨td, g⟩ <;> cases g <;> rfl

theorem C8_witness :
    (registerParamsOf cfgEx "role-arn" "a1" creds1 (logGroupNameOf "a1")).image =
      cfgEx.ecrRegistry ++ "/" ++ cfgEx.ecrRepository ++ ":latest" :=
  C8_image_amended cfgEx pAllOk "a1" creds1 _ (by decide)

/-- C10: `generateAgentCode` ignores `useTestCode` (line 60 overwrites it to
`false`), so two calls differing only in that flag make the identical AI
engine request and return the identical result. -/
theorem C10_useTestCode_independent (ai : AiEngineResponse) (s : String)
    (b1 b2 : Bool) :
    generateAgentCode ai s b1 = generateAgentCode ai s b2 := rfl

/-- C1: the recovery path does delete (force) and recreate after a rejected
update, but when the recovery itself fails the combined error is not always
the reported outcome: here the update is rejected (`Rate exceeded`) and the
forced delete raises `service not found`; the combined error text contains
`not found`, so the outer catch swallows it and a fresh create reports
success — no error mentioning either reason reaches the caller. -/
theorem C1_recovery_error_swallowed :
    p1b.updateServiceResp = .error ⟨"Error", "Rate exceeded"⟩ ∧
    p1b.deleteServiceResp = .error ⟨"Error", "service not found"⟩ ∧
    PlatformCall.deleteService (deleteParamsOf cfgEx (serviceNameOf "a1")) ∈
      (deployToFargate cfgEx p1b "a1" creds1).1 ∧
    resultServiceArn (deployToFargate cfgEx p1b "a1" creds1).2 = some "arn-recovered" :=
  ⟨rfl, rfl, by decide, by decide⟩

/-- C9: after a describe call found the service, a failure of the sanctioned
delete-then-recreate path (create fails with a message containing
`not found`) makes the outer catch issue an additional service-creation
attempt: the trace holds two `CreateServiceCommand` calls. -/
theorem C9_extra_create_after_found :
    p9.describeServicesResp = .ok (some ["INACTIVE"]) ∧
    PlatformCall.updateService (updateParamsOf cfgEx (serviceNameOf "a1") "td-arn") ∈
      (deployToFargate cfgEx p9 "a1" creds1).1 ∧
    ((deployToFargate cfgEx p9 "a1" creds1).1.filter isCreateCall).length = 2 :=
  ⟨rfl, by decide, by decide⟩

end HyperliquidDeployer
